import Mathlib

/-!
Verification of the directive enforcement engine of `graphql-citadel`
(`src/citadelDirective.ts`, `src/errors/errors.ts`, `src/errors/code.ts`).

The engine's per-field transform `f` inspects the directives attached to a
field configuration and replaces the field's `resolve` function with a
wrapped resolver enforcing the policy.  We embed the runtime behaviour of
the wrapped resolver as the pure function `runField`: given the engine
options, the field's directive metadata and original resolver, and a
request input, it returns the outcome (original value, GraphQL error, or
plain configuration error) together with flags recording which of the
injected resolvers and the original resolver were invoked.  JavaScript
values reachable as directive arguments are embedded as `JSValue`, with JS
truthiness made explicit, because the argument validation in
`isPermissionMethodArray` and the `Array.prototype.find` coercion in the
permission check both depend on it.
-/

namespace Citadel

/-- JavaScript values as they can occur as directive argument values
(`unknown` in the source). -/
inductive JSValue where
  | vUndefined : JSValue
  | vNull : JSValue
  | vBool : Bool → JSValue
  | vNum : Int → JSValue
  | vStr : String → JSValue
  | vArr : List JSValue → JSValue
deriving Repr

/-- JavaScript truthiness of a `JSValue` (`if (!value) ...` in
`isPermissionMethodArray`): `undefined`, `null`, `false`, `0` and `""` are
falsy; every array (including the empty array) is truthy. -/
def jsTruthy : JSValue → Bool
  | JSValue.vUndefined => false
  | JSValue.vNull => false
  | JSValue.vBool b => b
  | JSValue.vNum n => n != 0
  | JSValue.vStr s => s != ""
  | JSValue.vArr _ => true

/-- A directive instance as returned by `getDirective(...)?.[0]`: a map
from argument names to values (`{ [argName: string]: unknown }`). -/
abbrev DirectiveArgs := List (String × JSValue)

/-- Reading `directive["argName"]`: the value stored under the name, or
`undefined` when the key is absent. -/
def lookupArg (directive : DirectiveArgs) (argName : String) : JSValue :=
  match directive.find? (fun kv => kv.fst == argName) with
  | some kv => kv.snd
  | none => JSValue.vUndefined

/-- `isStringArray` from the source: `value.every((v) => typeof v === "string")`. -/
def isStringArray (value : List JSValue) : Bool :=
  value.all fun v =>
    match v with
    | JSValue.vStr _ => true
    | _ => false

/-- `isPermissionMethodArray` from the source.  It throws (modelled as
`Except.error` carrying the message) on a falsy value and on a truthy
non-array, and otherwise reports whether the array is all strings. -/
def isPermissionMethodArray (value : JSValue) : Except String Bool :=
  if jsTruthy value = false then
    Except.error "permissions argument is required to the directive"
  else
    match value with
    | JSValue.vArr xs => Except.ok (isStringArray xs)
    | _ => Except.error "permissions argument should be an array of permissions"

/-- The strings of a JS array.  When `isStringArray` holds this is exactly
the array, embedding the TypeScript type narrowing `value is string[]`. -/
def stringElems : List JSValue → List String
  | [] => []
  | JSValue.vStr s :: rest => s :: stringElems rest
  | _ :: rest => stringElems rest

/-- `getPermissions` from the source: read `directive["permissions"]`,
throw `"invalid permissions type"` unless `isPermissionMethodArray`
narrows it to a string array, and return that string array. -/
def getPermissions (directive : DirectiveArgs) : Except String (List String) :=
  match isPermissionMethodArray (lookupArg directive "permissions"),
        lookupArg directive "permissions" with
  | Except.error msg, _ => Except.error msg
  | Except.ok false, _ => Except.error "invalid permissions type"
  | Except.ok true, JSValue.vArr xs => Except.ok (stringElems xs)
  | Except.ok true, _ => Except.ok []

/-- The per-required-permission test of the source's
`requiredPermissions.every((rp) => permissions.find((p) => p === rp))`:
`find` returns the first matching element or `undefined`, and `every`
coerces that value to a boolean, so a found empty string counts as
`false`. -/
def permissionFound (permissions : List String) (rp : String) : Bool :=
  match permissions.find? (fun p => p == rp) with
  | some p => p != ""
  | none => false

/-- `const hasPermission = !requiredPermissions.every((rp) =>
permissions.find((p) => p === rp))` — true when the check FAILS (the
source variable name is kept, misnomer included). -/
def hasPermission (requiredPermissions permissions : List String) : Bool :=
  !(requiredPermissions.all fun rp => permissionFound permissions rp)

/-- `CitadelErrorCode` from `src/errors/code.ts`. -/
inductive CitadelErrorCode where
  | FORBIDDEN : CitadelErrorCode
  | UNAUTHENTICATED : CitadelErrorCode
deriving DecidableEq, Repr

/-- A `GraphQLError` as built in `src/errors/errors.ts`: a message plus
the `extensions.code` value. -/
structure GraphQLError where
  message : String
  code : CitadelErrorCode
deriving DecidableEq, Repr

/-- `AuthenticationError` from `src/errors/errors.ts`: code `UNAUTHENTICATED`. -/
def AuthenticationError (message : String) : GraphQLError :=
  ⟨message, CitadelErrorCode.UNAUTHENTICATED⟩

/-- `ForbiddenError` from `src/errors/errors.ts`: code `FORBIDDEN`. -/
def ForbiddenError (message : String) : GraphQLError :=
  ⟨message, CitadelErrorCode.FORBIDDEN⟩

/-- Result of one invocation of a (possibly wrapped) resolver: the
original resolver's value, a thrown `GraphQLError`, or a thrown plain
`Error` (the configuration errors of `getPermissions` /
`isPermissionMethodArray`, which carry no `extensions.code`). -/
inductive Outcome (R : Type) where
  | value : R → Outcome R
  | graphqlError : GraphQLError → Outcome R
  | plainError : String → Outcome R
deriving DecidableEq, Repr

/-- One invocation's observable behaviour: the outcome plus which of the
authentication resolver, the permission resolver and the original
resolver ran during the invocation. -/
structure RunResult (R : Type) where
  outcome : Outcome R
  authenticationResolverInvoked : Bool
  permissionResolverInvoked : Bool
  originalResolverInvoked : Bool
deriving DecidableEq, Repr

/-- The engine options relevant to enforcement (`AuthzDirectiveOptions`):
the `bypass` flag and the two optional injected resolvers.  `I` stands
for the per-invocation `(source, args, context, info)` tuple, which the
engine passes through without inspection; a resolver additionally
receives the directive argument map. -/
structure AuthzDirectiveOptions (I R : Type) where
  bypass : Bool
  authenticationResolver : Option (I → DirectiveArgs → Bool)
  permissionResolver : Option (I → DirectiveArgs → List String)

/-- A field configuration as seen by the transform `f`: whether the
`public` and `authenticated` directives are attached, the
`hasPermissions` directive instance (with its argument map) if attached,
and the original resolver (after defaulting to `defaultFieldResolver`). -/
structure FieldConfig (I R : Type) where
  publicDirective : Bool
  authenticatedDirective : Bool
  permissionDirective : Option DirectiveArgs
  resolve : I → R

/-- The behaviour of the field as rewritten by the per-field transform
`f` (lines 131-241 of `citadelDirective.ts`), applied to one invocation:

1. `public` attached → the field config is returned unchanged, so the
   invocation runs the original resolver only;
2. else `authenticated` attached and an authentication resolver
   configured → the wrapped resolver calls the authentication resolver
   with `directive = {}`, then returns the original result on `true`, on
   `false` returns the original result under `bypass` and otherwise
   throws `AuthenticationError`;
3. else `hasPermissions` attached and a permission resolver configured →
   the wrapped resolver first validates the `permissions` argument via
   `getPermissions` (throwing a plain error on failure, before the
   permission resolver is called), then calls the permission resolver
   with the directive instance, computes `hasPermission`, and either
   throws `ForbiddenError` (unless `bypass`) or returns the original
   result;
4. else → deny by default: return the original result under `bypass`,
   otherwise throw `ForbiddenError`. -/
def runField {I R : Type} (options : AuthzDirectiveOptions I R)
    (fieldConfig : FieldConfig I R) (input : I) : RunResult R :=
  if fieldConfig.publicDirective then
    ⟨Outcome.value (fieldConfig.resolve input), false, false, true⟩
  else
    match fieldConfig.authenticatedDirective, options.authenticationResolver with
    | true, some authenticationResolver =>
      let authenticated := authenticationResolver input []
      if authenticated then
        ⟨Outcome.value (fieldConfig.resolve input), true, false, true⟩
      else if options.bypass then
        ⟨Outcome.value (fieldConfig.resolve input), true, false, true⟩
      else
        ⟨Outcome.graphqlError
          (AuthenticationError "unauthenticated or the user does not exist"),
          true, false, false⟩
    | _, _ =>
      match fieldConfig.permissionDirective, options.permissionResolver with
      | some permissionDirective, some permissionResolver =>
        match getPermissions permissionDirective with
        | Except.error msg => ⟨Outcome.plainError msg, false, false, false⟩
        | Except.ok requiredPermissions =>
          let permissions := permissionResolver input permissionDirective
          if hasPermission requiredPermissions permissions then
            if options.bypass then
              ⟨Outcome.value (fieldConfig.resolve input), false, true, true⟩
            else
              ⟨Outcome.graphqlError (ForbiddenError
                "user does not have enough permissions to act this request or the user does not exist"),
                false, true, false⟩
          else
            ⟨Outcome.value (fieldConfig.resolve input), false, true, true⟩
      | _, _ =>
        if options.bypass then
          ⟨Outcome.value (fieldConfig.resolve input), false, false, true⟩
        else
          ⟨Outcome.graphqlError (ForbiddenError "not allowed to perform this action"),
            false, false, false⟩

/-- The per-element permission test succeeds exactly when the required
permission is a non-empty string that occurs in the granted list: a found
empty string is coerced to `false` by JS truthiness. -/
theorem permissionFound_iff (permissions : List String) (rp : String) :
    permissionFound permissions rp = true ↔ rp ≠ "" ∧ rp ∈ permissions := by
  unfold permissionFound
  induction permissions with
  | nil => simp
  | cons p ps ih =>
    by_cases h : p = rp
    · subst h
      simp [List.find?]
    · rw [List.find?]
      have hne : (p == rp) = false := by simp [h]
      rw [hne]
      simp only [List.mem_cons]
      rw [ih]
      constructor
      · rintro ⟨h1, h2⟩
        exact ⟨h1, Or.inr h2⟩
      · rintro ⟨h1, h2 | h2⟩
        · exact absurd h2.symm h
        · exact ⟨h1, h2⟩

/-- `hasPermission` (the failure flag) is `false` exactly when every
required permission is a non-empty string occurring in the granted list. -/
theorem hasPermission_eq_false_iff (requiredPermissions permissions : List String) :
    hasPermission requiredPermissions permissions = false ↔
      ∀ rp ∈ requiredPermissions, rp ≠ "" ∧ rp ∈ permissions := by
  unfold hasPermission
  rw [Bool.not_eq_false', List.all_eq_true]
  constructor
  · intro h rp hrp
    exact (permissionFound_iff permissions rp).mp (h rp hrp)
  · intro h rp hrp
    exact (permissionFound_iff permissions rp).mpr (h rp hrp)

/-- Behaviour of the pass-through branch (`public` attached): the field
config is returned unchanged, so an invocation is exactly one run of the
original resolver. -/
def runPassthrough {I R : Type} (fieldConfig : FieldConfig I R) (input : I) :
    RunResult R :=
  ⟨Outcome.value (fieldConfig.resolve input), false, false, true⟩

/-- Behaviour of the authentication branch (lines 149-177 of the source)
on one invocation. -/
def runAuthenticatedBranch {I R : Type} (bypass : Bool)
    (authenticationResolver : I → DirectiveArgs → Bool)
    (fieldConfig : FieldConfig I R) (input : I) : RunResult R :=
  if authenticationResolver input [] then
    ⟨Outcome.value (fieldConfig.resolve input), true, false, true⟩
  else if bypass then
    ⟨Outcome.value (fieldConfig.resolve input), true, false, true⟩
  else
    ⟨Outcome.graphqlError
      (AuthenticationError "unauthenticated or the user does not exist"),
      true, false, false⟩

/-- Behaviour of the permission branch (lines 185-221 of the source) on
one invocation. -/
def runPermissionsBranch {I R : Type} (bypass : Bool)
    (permissionDirective : DirectiveArgs)
    (permissionResolver : I → DirectiveArgs → List String)
    (fieldConfig : FieldConfig I R) (input : I) : RunResult R :=
  match getPermissions permissionDirective with
  | Except.error msg => ⟨Outcome.plainError msg, false, false, false⟩
  | Except.ok requiredPermissions =>
    if hasPermission requiredPermissions (permissionResolver input permissionDirective) then
      if bypass then
        ⟨Outcome.value (fieldConfig.resolve input), false, true, true⟩
      else
        ⟨Outcome.graphqlError (ForbiddenError
          "user does not have enough permissions to act this request or the user does not exist"),
          false, true, false⟩
    else
      ⟨Outcome.value (fieldConfig.resolve input), false, true, true⟩

/-- Behaviour of the deny-by-default branch (lines 226-240 of the source)
on one invocation. -/
def runDenyBranch {I R : Type} (bypass : Bool) (fieldConfig : FieldConfig I R)
    (input : I) : RunResult R :=
  if bypass then
    ⟨Outcome.value (fieldConfig.resolve input), false, false, true⟩
  else
    ⟨Outcome.graphqlError (ForbiddenError "not allowed to perform this action"),
      false, false, false⟩

/-- A field with the `public` directive takes the pass-through branch. -/
theorem runField_eq_passthrough {I R : Type} (options : AuthzDirectiveOptions I R)
    (fieldConfig : FieldConfig I R) (input : I)
    (hpub : fieldConfig.publicDirective = true) :
    runField options fieldConfig input = runPassthrough fieldConfig input := by
  unfold runField runPassthrough
  rw [hpub]
  simp

/-- A non-public field with the `authenticated` directive and a
configured authentication resolver takes the authentication branch,
whatever `hasPermissions` metadata is also present. -/
theorem runField_eq_authenticatedBranch {I R : Type}
    (options : AuthzDirectiveOptions I R) (fieldConfig : FieldConfig I R)
    (input : I) (ar : I → DirectiveArgs → Bool)
    (hpub : fieldConfig.publicDirective = false)
    (hdir : fieldConfig.authenticatedDirective = true)
    (hres : options.authenticationResolver = some ar) :
    runField options fieldConfig input =
      runAuthenticatedBranch options.bypass ar fieldConfig input := by
  unfold runField runAuthenticatedBranch
  rw [hpub, hdir, hres]
  simp

/-- A non-public field not taking the authentication branch, with the
`hasPermissions` directive and a configured permission resolver, takes
the permission branch. -/
theorem runField_eq_permissionsBranch {I R : Type}
    (options : AuthzDirectiveOptions I R) (fieldConfig : FieldConfig I R)
    (input : I) (pd : DirectiveArgs) (pr : I → DirectiveArgs → List String)
    (hpub : fieldConfig.publicDirective = false)
    (hauth : fieldConfig.authenticatedDirective = false ∨
      options.authenticationResolver = none)
    (hdir : fieldConfig.permissionDirective = some pd)
    (hres : options.permissionResolver = some pr) :
    runField options fieldConfig input =
      runPermissionsBranch options.bypass pd pr fieldConfig input := by
  unfold runField runPermissionsBranch
  rw [hpub, hdir, hres]
  rcases hauth with h | h <;>
    cases hAR : options.authenticationResolver <;>
      simp_all

/-- A field on which no branch above fires takes the deny-by-default
branch. -/
theorem runField_eq_denyBranch {I R : Type} (options : AuthzDirectiveOptions I R)
    (fieldConfig : FieldConfig I R) (input : I)
    (hpub : fieldConfig.publicDirective = false)
    (hauth : fieldConfig.authenticatedDirective = false ∨
      options.authenticationResolver = none)
    (hperm : fieldConfig.permissionDirective = none ∨
      options.permissionResolver = none) :
    runField options fieldConfig input =
      runDenyBranch options.bypass fieldConfig input := by
  unfold runField runDenyBranch
  rw [hpub]
  rcases hauth with h | h <;> rcases hperm with h' | h' <;>
    cases hAR : options.authenticationResolver <;>
      cases hPR : options.permissionResolver <;>
        cases hPD : fieldConfig.permissionDirective <;>
          simp_all

/-- C5: for every field tagged `public`, the transform leaves the field's
resolution unchanged: the invocation returns exactly the original
resolver's result, invokes neither the authentication nor the permission
resolver, raises no engine error, and this holds regardless of any other
tag present on the field (including `authenticated` or `hasPermissions`
with configured resolvers) and regardless of the options. -/
theorem public_passthrough {I R : Type} (options : AuthzDirectiveOptions I R)
    (fieldConfig : FieldConfig I R) (input : I)
    (hpub : fieldConfig.publicDirective = true) :
    runField options fieldConfig input =
      ⟨Outcome.value (fieldConfig.resolve input), false, false, true⟩ :=
  runField_eq_passthrough options fieldConfig input hpub

def c5Options : AuthzDirectiveOptions Nat Nat :=
  ⟨false, some (fun _ _ => false), some (fun _ _ => [])⟩

def c5Field : FieldConfig Nat Nat :=
  ⟨true, true, some [("permissions", JSValue.vArr [JSValue.vStr "ADMIN"])],
    fun n => n + 1⟩

/-- Witness for C5: a `public` field that also carries `authenticated`
and `hasPermissions` tags, with both resolvers configured to deny,
still resolves to the original value. -/
theorem public_passthrough_witness :
    runField c5Options c5Field 4 = ⟨Outcome.value 5, false, false, true⟩ :=
  public_passthrough c5Options c5Field 4 rfl

/-- C3: a field with no recognized tag, or whose only recognized tag is
`authenticated` or `hasPermissions` without the corresponding resolver
configured, always raises `ForbiddenError` (code `FORBIDDEN`, never
`UNAUTHENTICATED`) when bypass is off, invoking no resolver at all. -/
theorem deny_by_default_forbidden {I R : Type}
    (options : AuthzDirectiveOptions I R) (fieldConfig : FieldConfig I R)
    (input : I)
    (hpub : fieldConfig.publicDirective = false)
    (hauth : fieldConfig.authenticatedDirective = false ∨
      options.authenticationResolver = none)
    (hperm : fieldConfig.permissionDirective = none ∨
      options.permissionResolver = none)
    (hbyp : options.bypass = false) :
    runField options fieldConfig input =
      ⟨Outcome.graphqlError (ForbiddenError "not allowed to perform this action"),
        false, false, false⟩
    ∧ (ForbiddenError "not allowed to perform this action").code =
        CitadelErrorCode.FORBIDDEN
    ∧ (ForbiddenError "not allowed to perform this action").code ≠
        CitadelErrorCode.UNAUTHENTICATED := by
  refine ⟨?_, rfl, by decide⟩
  rw [runField_eq_denyBranch options fieldConfig input hpub hauth hperm]
  unfold runDenyBranch
  rw [hbyp]
  simp

def c3Options : AuthzDirectiveOptions Nat Nat :=
  ⟨false, none, some (fun _ _ => ["ADMIN"])⟩

def c3Field : FieldConfig Nat Nat :=
  ⟨false, true, none, fun n => n + 1⟩

/-- Witness for C3: a field tagged `authenticated` without an
authentication resolver configured falls to deny-by-default and raises
`FORBIDDEN`, not `UNAUTHENTICATED`. -/
theorem deny_by_default_forbidden_witness :
    runField c3Options c3Field 0 =
      ⟨Outcome.graphqlError (ForbiddenError "not allowed to perform this action"),
        false, false, false⟩ :=
  (deny_by_default_forbidden c3Options c3Field 0 rfl (Or.inr rfl) (Or.inl rfl) rfl).1

/-- C4: for a field tagged `authenticated` with a configured
authentication resolver: when the resolver returns `true` the wrapped
resolver returns exactly the original resolver's result; when it returns
`false` and bypass is off, an error with code `UNAUTHENTICATED` is raised
and the original resolver is not invoked. -/
theorem authenticated_enforcement {I R : Type}
    (options : AuthzDirectiveOptions I R) (fieldConfig : FieldConfig I R)
    (input : I) (ar : I → DirectiveArgs → Bool)
    (hpub : fieldConfig.publicDirective = false)
    (hdir : fieldConfig.authenticatedDirective = true)
    (hres : options.authenticationResolver = some ar) :
    (ar input [] = true →
      runField options fieldConfig input =
        ⟨Outcome.value (fieldConfig.resolve input), true, false, true⟩)
    ∧ (ar input [] = false → options.bypass = false →
      runField options fieldConfig input =
        ⟨Outcome.graphqlError
          (AuthenticationError "unauthenticated or the user does not exist"),
          true, false, false⟩
      ∧ (AuthenticationError "unauthenticated or the user does not exist").code =
          CitadelErrorCode.UNAUTHENTICATED) := by
  rw [runField_eq_authenticatedBranch options fieldConfig input ar hpub hdir hres]
  unfold runAuthenticatedBranch
  constructor
  · intro htrue
    rw [htrue]
    simp
  · intro hfalse hbyp
    rw [hfalse, hbyp]
    exact ⟨rfl, rfl⟩

def c4Options : AuthzDirectiveOptions Nat Nat :=
  ⟨false, some (fun n _ => n == 1), none⟩

def c4Field : FieldConfig Nat Nat :=
  ⟨false, true, none, fun n => n + 10⟩

/-- Witness for C4: with a resolver authenticating exactly input `1`,
input `1` resolves to the original value and input `0` raises
`UNAUTHENTICATED` without running the original resolver. -/
theorem authenticated_enforcement_witness :
    runField c4Options c4Field 1 = ⟨Outcome.value 11, true, false, true⟩
    ∧ runField c4Options c4Field 0 =
        ⟨Outcome.graphqlError
          (AuthenticationError "unauthenticated or the user does not exist"),
          true, false, false⟩ :=
  ⟨(authenticated_enforcement c4Options c4Field 1 (fun n _ => n == 1)
      rfl rfl rfl).1 rfl,
    ((authenticated_enforcement c4Options c4Field 0 (fun n _ => n == 1)
      rfl rfl rfl).2 rfl rfl).1⟩

/-- C2: for a field tagged `hasPermissions` with a configured permission
resolver whose `permissions` argument fails validation (missing, not an
array, or containing a non-string element — i.e. `getPermissions`
throws), every invocation raises the plain configuration error (which
carries no `UNAUTHENTICATED`/`FORBIDDEN` code), whatever the bypass flag
and whatever the permission resolver would return, and the original
resolver is not invoked. -/
theorem malformed_permissions_always_config_error {I R : Type}
    (options : AuthzDirectiveOptions I R) (fieldConfig : FieldConfig I R)
    (input : I) (pd : DirectiveArgs) (pr : I → DirectiveArgs → List String)
    (msg : String)
    (hpub : fieldConfig.publicDirective = false)
    (hauth : fieldConfig.authenticatedDirective = false ∨
      options.authenticationResolver = none)
    (hdir : fieldConfig.permissionDirective = some pd)
    (hres : options.permissionResolver = some pr)
    (herr : getPermissions pd = Except.error msg) :
    runField options fieldConfig input =
      ⟨Outcome.plainError msg, false, false, false⟩ := by
  rw [runField_eq_permissionsBranch options fieldConfig input pd pr
    hpub hauth hdir hres]
  unfold runPermissionsBranch
  rw [herr]

def c2Directive : DirectiveArgs := [("permissions", JSValue.vStr "ADMIN")]

def c2Options : AuthzDirectiveOptions Nat Nat :=
  ⟨true, none, some (fun _ _ => ["ADMIN"])⟩

def c2Field : FieldConfig Nat Nat :=
  ⟨false, false, some c2Directive, fun n => n + 1⟩

/-- Witness for C2: a `permissions` argument that is a bare string (not
an array) raises the configuration error even though bypass is on and
the permission resolver would grant the permission. -/
theorem malformed_permissions_always_config_error_witness :
    runField c2Options c2Field 0 =
      ⟨Outcome.plainError "permissions argument should be an array of permissions",
        false, false, false⟩ :=
  malformed_permissions_always_config_error c2Options c2Field 0 c2Directive
    (fun _ _ => ["ADMIN"])
    "permissions argument should be an array of permissions"
    rfl (Or.inl rfl) rfl rfl rfl

/-- C9: on the permission branch with a malformed `permissions` argument,
the permission resolver itself is never invoked: `getPermissions` runs
and throws before the resolver call, so the configuration error cannot
depend on, or trigger, any resolver side effect. -/
theorem malformed_permissions_resolver_not_invoked {I R : Type}
    (options : AuthzDirectiveOptions I R) (fieldConfig : FieldConfig I R)
    (input : I) (pd : DirectiveArgs) (pr : I → DirectiveArgs → List String)
    (msg : String)
    (hpub : fieldConfig.publicDirective = false)
    (hauth : fieldConfig.authenticatedDirective = false ∨
      options.authenticationResolver = none)
    (hdir : fieldConfig.permissionDirective = some pd)
    (hres : options.permissionResolver = some pr)
    (herr : getPermissions pd = Except.error msg) :
    (runField options fieldConfig input).permissionResolverInvoked = false
    ∧ (runField options fieldConfig input).outcome = Outcome.plainError msg := by
  rw [runField_eq_permissionsBranch options fieldConfig input pd pr
    hpub hauth hdir hres]
  unfold runPermissionsBranch
  rw [herr]
  exact ⟨rfl, rfl⟩

def c9Directive : DirectiveArgs := []

def c9Options : AuthzDirectiveOptions Nat Nat :=
  ⟨false, none, some (fun _ _ => ["ADMIN"])⟩

def c9Field : FieldConfig Nat Nat :=
  ⟨false, false, some c9Directive, fun n => n⟩

/-- Witness for C9: a `hasPermissions` directive instance with no
`permissions` argument raises the missing-argument error with the
permission resolver never invoked. -/
theorem malformed_permissions_resolver_not_invoked_witness :
    (runField c9Options c9Field 5).permissionResolverInvoked = false
    ∧ (runField c9Options c9Field 5).outcome =
        Outcome.plainError "permissions argument is required to the directive" :=
  malformed_permissions_resolver_not_invoked c9Options c9Field 5 c9Directive
    (fun _ _ => ["ADMIN"])
    "permissions argument is required to the directive"
    rfl (Or.inl rfl) rfl rfl rfl

/-- C10: a field tagged `public` that also carries a `hasPermissions` tag
with a malformed `permissions` argument never raises the configuration
error: the public branch returns the field config before the argument is
read or validated, so every invocation just runs the original resolver
(the transform itself performs no validation either — `getPermissions`
is only called inside the permission branch's wrapped resolver). -/
theorem public_masks_malformed_permissions {I R : Type}
    (options : AuthzDirectiveOptions I R) (fieldConfig : FieldConfig I R)
    (input : I) (pd : DirectiveArgs) (msg : String)
    (hpub : fieldConfig.publicDirective = true)
    (_hdir : fieldConfig.permissionDirective = some pd)
    (_herr : getPermissions pd = Except.error msg) :
    runField options fieldConfig input =
      ⟨Outcome.value (fieldConfig.resolve input), false, false, true⟩ :=
  runField_eq_passthrough options fieldConfig input hpub

def c10Directive : DirectiveArgs := [("permissions", JSValue.vNull)]

def c10Options : AuthzDirectiveOptions Nat Nat :=
  ⟨false, none, some (fun _ _ => [])⟩

def c10Field : FieldConfig Nat Nat :=
  ⟨true, false, some c10Directive, fun n => n + 2⟩

/-- Witness for C10: a public field whose `hasPermissions` argument is
`null` (malformed) resolves to the original value with no error. -/
theorem public_masks_malformed_permissions_witness :
    runField c10Options c10Field 1 = ⟨Outcome.value 3, false, false, true⟩ :=
  public_masks_malformed_permissions c10Options c10Field 1 c10Directive
    "permissions argument is required to the directive" rfl rfl rfl

/-- C6: when bypass is on, every otherwise-blocking path invokes the
original resolver and returns its result: the authentication branch on a
`false` authentication result (the authentication resolver still
invoked), the permission branch on an unsatisfied required set (the
permission resolver still invoked), and the deny-by-default branch. -/
theorem bypass_unblocks_all_paths {I R : Type}
    (options : AuthzDirectiveOptions I R) (fieldConfig : FieldConfig I R)
    (input : I)
    (hbyp : options.bypass = true)
    (hpub : fieldConfig.publicDirective = false) :
    (∀ ar, fieldConfig.authenticatedDirective = true →
      options.authenticationResolver = some ar → ar input [] = false →
      runField options fieldConfig input =
        ⟨Outcome.value (fieldConfig.resolve input), true, false, true⟩)
    ∧ (∀ pd pr requiredPermissions,
      (fieldConfig.authenticatedDirective = false ∨
        options.authenticationResolver = none) →
      fieldConfig.permissionDirective = some pd →
      options.permissionResolver = some pr →
      getPermissions pd = Except.ok requiredPermissions →
      hasPermission requiredPermissions (pr input pd) = true →
      runField options fieldConfig input =
        ⟨Outcome.value (fieldConfig.resolve input), false, true, true⟩)
    ∧ ((fieldConfig.authenticatedDirective = false ∨
        options.authenticationResolver = none) →
      (fieldConfig.permissionDirective = none ∨
        options.permissionResolver = none) →
      runField options fieldConfig input =
        ⟨Outcome.value (fieldConfig.resolve input), false, false, true⟩) := by
  refine ⟨?_, ?_, ?_⟩
  · intro ar hdir hres hfalse
    rw [runField_eq_authenticatedBranch options fieldConfig input ar hpub hdir hres]
    unfold runAuthenticatedBranch
    rw [hfalse, hbyp]
    simp
  · intro pd pr requiredPermissions hauth hdir hres hok hfail
    rw [runField_eq_permissionsBranch options fieldConfig input pd pr
      hpub hauth hdir hres]
    unfold runPermissionsBranch
    rw [hok]
    simp [hfail, hbyp]
  · intro hauth hperm
    rw [runField_eq_denyBranch options fieldConfig input hpub hauth hperm]
    unfold runDenyBranch
    rw [hbyp]
    simp

def c6Directive : DirectiveArgs := [("permissions", JSValue.vArr [JSValue.vStr "ADMIN"])]

def c6aOptions : AuthzDirectiveOptions Nat Nat :=
  ⟨true, some (fun _ _ => false), none⟩

def c6aField : FieldConfig Nat Nat :=
  ⟨false, true, none, fun n => n * 3⟩

def c6bOptions : AuthzDirectiveOptions Nat Nat :=
  ⟨true, none, some (fun _ _ => ["VIEWER"])⟩

def c6bField : FieldConfig Nat Nat :=
  ⟨false, false, some c6Directive, fun n => n * 3⟩

def c6cOptions : AuthzDirectiveOptions Nat Nat :=
  ⟨true, none, none⟩

def c6cField : FieldConfig Nat Nat :=
  ⟨false, false, none, fun n => n * 3⟩

/-- Witness for C6: with bypass on, a denied authentication, an
unsatisfied permission set, and the deny-by-default fallback each run
the original resolver (the corresponding injected resolver still
invoked first in the first two cases). -/
theorem bypass_unblocks_all_paths_witness :
    runField c6aOptions c6aField 2 = ⟨Outcome.value 6, true, false, true⟩
    ∧ runField c6bOptions c6bField 2 = ⟨Outcome.value 6, false, true, true⟩
    ∧ runField c6cOptions c6cField 2 = ⟨Outcome.value 6, false, false, true⟩ :=
  ⟨(bypass_unblocks_all_paths c6aOptions c6aField 2 rfl rfl).1
      (fun _ _ => false) rfl rfl rfl,
    (bypass_unblocks_all_paths c6bOptions c6bField 2 rfl rfl).2.1
      c6Directive (fun _ _ => ["VIEWER"]) ["ADMIN"]
      (Or.inl rfl) rfl rfl rfl rfl,
    (bypass_unblocks_all_paths c6cOptions c6cField 2 rfl rfl).2.2
      (Or.inl rfl) (Or.inl rfl)⟩

/-- C8: enforcement follows the fixed precedence
`public > authenticated > hasPermissions > deny-by-default`: a `public`
tag selects pass-through regardless of other tags; otherwise an
`authenticated` tag with a configured authentication resolver selects
the authentication branch even when a `hasPermissions` tag with a
configured permission resolver is also present (the second conjunct
holds for every permission configuration); otherwise a `hasPermissions`
tag with a configured permission resolver selects the permission branch;
otherwise the deny-by-default branch applies. -/
theorem tag_precedence_order {I R : Type} (options : AuthzDirectiveOptions I R)
    (fieldConfig : FieldConfig I R) (input : I) :
    (fieldConfig.publicDirective = true →
      runField options fieldConfig input = runPassthrough fieldConfig input)
    ∧ (fieldConfig.publicDirective = false → ∀ ar,
      fieldConfig.authenticatedDirective = true →
      options.authenticationResolver = some ar →
      runField options fieldConfig input =
        runAuthenticatedBranch options.bypass ar fieldConfig input)
    ∧ (fieldConfig.publicDirective = false →
      (fieldConfig.authenticatedDirective = false ∨
        options.authenticationResolver = none) →
      ∀ pd pr, fieldConfig.permissionDirective = some pd →
      options.permissionResolver = some pr →
      runField options fieldConfig input =
        runPermissionsBranch options.bypass pd pr fieldConfig input)
    ∧ (fieldConfig.publicDirective = false →
      (fieldConfig.authenticatedDirective = false ∨
        options.authenticationResolver = none) →
      (fieldConfig.permissionDirective = none ∨
        options.permissionResolver = none) →
      runField options fieldConfig input =
        runDenyBranch options.bypass fieldConfig input) :=
  ⟨fun hpub => runField_eq_passthrough options fieldConfig input hpub,
    fun hpub ar hdir hres =>
      runField_eq_authenticatedBranch options fieldConfig input ar hpub hdir hres,
    fun hpub hauth pd pr hdir hres =>
      runField_eq_permissionsBranch options fieldConfig input pd pr
        hpub hauth hdir hres,
    fun hpub hauth hperm =>
      runField_eq_denyBranch options fieldConfig input hpub hauth hperm⟩

def c8Directive : DirectiveArgs := [("permissions", JSValue.vArr [JSValue.vStr "ADMIN"])]

def c8Options : AuthzDirectiveOptions Nat Nat :=
  ⟨false, some (fun _ _ => false), some (fun _ _ => ["ADMIN"])⟩

def c8Field : FieldConfig Nat Nat :=
  ⟨false, true, some c8Directive, fun n => n⟩

/-- Witness for C8: a field tagged both `authenticated` and
`hasPermissions`, with both resolvers configured, takes the
authentication branch — it raises `UNAUTHENTICATED` even though the
permission resolver would have granted the required permission. -/
theorem tag_precedence_order_witness :
    runField c8Options c8Field 0 =
      runAuthenticatedBranch false (fun _ _ => false) c8Field 0
    ∧ runAuthenticatedBranch false (fun _ _ => false) c8Field 0 =
        ⟨Outcome.graphqlError
          (AuthenticationError "unauthenticated or the user does not exist"),
          true, false, false⟩ :=
  ⟨(tag_precedence_order c8Options c8Field 0).2.1 rfl
      (fun _ _ => false) rfl rfl, rfl⟩

def c1Directive : DirectiveArgs := [("permissions", JSValue.vArr [JSValue.vStr ""])]

def c1Options : AuthzDirectiveOptions Nat Nat :=
  ⟨false, none, some (fun _ _ => [""])⟩

def c1Field : FieldConfig Nat Nat :=
  ⟨false, false, some c1Directive, fun n => n⟩

/-- C1 counterexample: the required list `R = [""]` is well-formed (the
validation accepts it) and the permission resolver grants `G = [""]`, so
`R ⊆ G`; yet the invocation raises `ForbiddenError` and the original
resolver is not invoked, because `permissions.find(...)` returns the
found empty string, which `every` coerces to `false`.  So "invoked iff
R ⊆ G" fails on the code. -/
theorem hasPermissions_subset_cex :
    getPermissions c1Directive = Except.ok [""]
    ∧ ([""] : List String) ⊆ [""]
    ∧ runField c1Options c1Field 7 =
        ⟨Outcome.graphqlError (ForbiddenError
          "user does not have enough permissions to act this request or the user does not exist"),
          false, true, false⟩ :=
  ⟨rfl, fun _ h => h, rfl⟩

/-- C1 (amended): for a field tagged `hasPermissions` with a configured
permission resolver, a well-formed required list `R` and granted list
`G`, with bypass off: the original resolver is invoked iff every element
of `R` is a NON-EMPTY string that is an element of `G` (order and
duplicates irrelevant; a required empty-string permission always fails,
even when granted, because the string found by `find` is coerced to a
boolean); when that condition holds the original result is returned, and
when it fails a `ForbiddenError` with code `FORBIDDEN` is raised and the
original resolver is not invoked. -/
theorem hasPermissions_enforcement_amended {I R : Type}
    (options : AuthzDirectiveOptions I R) (fieldConfig : FieldConfig I R)
    (input : I) (pd : DirectiveArgs) (pr : I → DirectiveArgs → List String)
    (requiredPermissions : List String)
    (hpub : fieldConfig.publicDirective = false)
    (hauth : fieldConfig.authenticatedDirective = false ∨
      options.authenticationResolver = none)
    (hdir : fieldConfig.permissionDirective = some pd)
    (hres : options.permissionResolver = some pr)
    (hreq : getPermissions pd = Except.ok requiredPermissions)
    (hbyp : options.bypass = false) :
    ((runField options fieldConfig input).originalResolverInvoked = true ↔
      ∀ rp ∈ requiredPermissions, rp ≠ "" ∧ rp ∈ pr input pd)
    ∧ ((∀ rp ∈ requiredPermissions, rp ≠ "" ∧ rp ∈ pr input pd) →
      runField options fieldConfig input =
        ⟨Outcome.value (fieldConfig.resolve input), false, true, true⟩)
    ∧ (¬ (∀ rp ∈ requiredPermissions, rp ≠ "" ∧ rp ∈ pr input pd) →
      runField options fieldConfig input =
        ⟨Outcome.graphqlError (ForbiddenError
          "user does not have enough permissions to act this request or the user does not exist"),
          false, true, false⟩
      ∧ (ForbiddenError
          "user does not have enough permissions to act this request or the user does not exist").code =
          CitadelErrorCode.FORBIDDEN) := by
  rw [runField_eq_permissionsBranch options fieldConfig input pd pr
    hpub hauth hdir hres]
  unfold runPermissionsBranch
  rw [hreq]
  by_cases hcond : ∀ rp ∈ requiredPermissions, rp ≠ "" ∧ rp ∈ pr input pd
  · have hHP : hasPermission requiredPermissions (pr input pd) = false :=
      (hasPermission_eq_false_iff requiredPermissions (pr input pd)).mpr hcond
    simp only [hHP]
    simp [hcond]
    exact hcond
  · have hHP : hasPermission requiredPermissions (pr input pd) = true := by
      cases h : hasPermission requiredPermissions (pr input pd)
      · exact absurd ((hasPermission_eq_false_iff requiredPermissions
          (pr input pd)).mp h) hcond
      · rfl
    simp only [hHP]
    simp [hcond, hbyp]
    rfl

def c1wDirective : DirectiveArgs :=
  [("permissions", JSValue.vArr [JSValue.vStr "ADMIN", JSValue.vStr "ADMIN"])]

def c1wOptions : AuthzDirectiveOptions Nat Nat :=
  ⟨false, none, some (fun _ _ => ["VIEWER", "ADMIN"])⟩

def c1wField : FieldConfig Nat Nat :=
  ⟨false, false, some c1wDirective, fun n => n + 1⟩

/-- Witness for the amended C1: required `["ADMIN","ADMIN"]` (duplicates
irrelevant) against granted `["VIEWER","ADMIN"]` (order irrelevant)
invokes the original resolver and returns its value. -/
theorem hasPermissions_enforcement_amended_witness :
    runField c1wOptions c1wField 9 = ⟨Outcome.value 10, false, true, true⟩ :=
  (hasPermissions_enforcement_amended c1wOptions c1wField 9 c1wDirective
    (fun _ _ => ["VIEWER", "ADMIN"]) ["ADMIN", "ADMIN"]
    rfl (Or.inl rfl) rfl rfl rfl rfl).2.1 (by decide)

def c7Directive : DirectiveArgs := [("permissions", JSValue.vArr [])]

def c7Options : AuthzDirectiveOptions Nat Nat :=
  ⟨false, none, some (fun _ _ => [])⟩

def c7Field : FieldConfig Nat Nat :=
  ⟨false, false, some c7Directive, fun n => n * 2⟩

/-- C7 counterexample: the empty array IS admitted by the validation
(`if (!value)` does not fire because an array is truthy in JS), and with
required set `[]` the containment check passes vacuously: with bypass off
and a permission resolver granting nothing, the original resolver is
invoked.  So "an empty list is not admitted" fails on the code. -/
theorem empty_permissions_admitted_cex :
    getPermissions c7Directive = Except.ok []
    ∧ runField c7Options c7Field 3 = ⟨Outcome.value 6, false, true, true⟩ :=
  ⟨rfl, rfl⟩

/-- C7 (amended): the tag-argument validation admits a value exactly when
it is an array (possibly empty) all of whose elements are strings: the
empty array is admitted, and as the required-permission set it grants
access vacuously (`hasPermission` never fires on it). -/
theorem permissions_validation_admits_amended (pd : DirectiveArgs) :
    ((∃ ss, getPermissions pd = Except.ok ss) ↔
      ∃ xs, lookupArg pd "permissions" = JSValue.vArr xs ∧ isStringArray xs = true)
    ∧ getPermissions [("permissions", JSValue.vArr [])] = Except.ok []
    ∧ (∀ grantedPermissions : List String,
        hasPermission [] grantedPermissions = false) := by
  refine ⟨?_, rfl, fun grantedPermissions => rfl⟩
  unfold getPermissions isPermissionMethodArray
  cases hv : lookupArg pd "permissions" with
  | vArr xs =>
    cases hs : isStringArray xs <;> simp [jsTruthy, hs]
  | vBool b => cases b <;> simp [jsTruthy]
  | vStr s =>
    by_cases h : s = "" <;> simp [jsTruthy, h]
  | vNum n =>
    by_cases h : n = 0 <;> simp [jsTruthy, h]
  | vUndefined => simp [jsTruthy]
  | vNull => simp [jsTruthy]

end Citadel
